import Mathlib

/-!
Shallow embedding of the agricultural weather-alert server
(`server.py`, `bihar_agmcp_server.py`, `tools/crop_calendar_tools.py`,
`a2a_agents/sms_agent.py`).

Modelling conventions:
* Python `float` values are embedded as exact rationals (`ℚ`);
  `int(x)` is truncation toward zero, `x // y` is floor division.
* Python `str` is `String` where only concatenation and equality matter,
  and `List Char` where character-level slicing matters (Python strings
  are sequences of code points, as is `List Char`).
* A Python `dict` payload is a structure with `Option` fields for keys
  that may be absent; `d.get(k, v)` becomes `Option.getD`.
* Code that may raise returns `Except String α` (the `String` names the
  Python exception); code whose exceptions are all caught internally
  returns a plain value.
* Python's `f-string` one-decimal float format `:.1f` is modelled by
  `fmt1`, decimal rounding of the exact rational; no claim depends on
  the rounding convention of message text.
-/

section Spec2Proof

attribute [local semireducible] Rat.add Rat.mul Rat.sub Rat.inv Rat.ofScientific

/-- Association-list lookup, first match wins: the embedding of a Python
dict literal. -/
def pyLookup {κ α : Type} [DecidableEq κ] : List (κ × α) → κ → Option α
  | [], _ => none
  | (k, v) :: rest, key => if key = k then some v else pyLookup rest key

/-- Floor of a rational as an integer, computed from the numerator and
denominator by integer floor division. -/
def ratFloor (q : ℚ) : ℤ := Int.fdiv q.num (q.den : ℤ)

/-- Python `int(x)` on a float: truncation toward zero. -/
def pyInt (q : ℚ) : ℤ := if 0 ≤ q then ratFloor q else -(ratFloor (-q))

/-- Python `str.lower()`, modelled character-wise (faithful for the
ASCII crop names the tables use). -/
def pyLower (s : String) : String := ⟨s.data.map Char.toLower⟩

/-- Python one-decimal float formatting `:.1f`, modelled as decimal
rounding of the exact rational (ties away from the floor). -/
def fmt1 (q : ℚ) : String :=
  let n : ℤ := ratFloor (q * 10 + 1 / 2)
  let sign := if n < 0 then ("-") else ("")
  let m := n.natAbs
  sign ++ toString (m / 10) ++ (".") ++ toString (m % 10)

/-! ## Season classification (`server.py:122-129`, `bihar_agmcp_server.py:117-124`) -/

/-- Embedding of `get_current_season` from `server.py`: months 6-9 are
kharif, months 10-12 and 1-3 are rabi, the rest (4, 5) zaid. -/
def get_current_season (month : ℕ) : String :=
  if month ∈ ([6, 7, 8, 9] : List ℕ) then "kharif"
  else if month ∈ ([10, 11, 12, 1, 2, 3] : List ℕ) then "rabi"
  else "zaid"

/-- Embedding of `get_current_season` from `bihar_agmcp_server.py`,
a textually identical copy of the one in `server.py`. -/
def bihar_get_current_season (month : ℕ) : String :=
  if month ∈ ([6, 7, 8, 9] : List ℕ) then "kharif"
  else if month ∈ ([10, 11, 12, 1, 2, 3] : List ℕ) then "rabi"
  else "zaid"

/-! ## Weather-based alert classifier (`server.py:236-294`) -/

/-- The `current_weather` sub-dict of an open-meteo response: the
`temperature` and `windspeed` keys may be absent. -/
structure CurrentWeatherDict where
  temperature : Option ℚ
  windspeed : Option ℚ

/-- The `daily` forecast sub-dict: the `precipitation_sum` key may be
absent. -/
structure DailyDict where
  precipitation_sum : Option (List ℚ)

/-- The `weather_data` dict passed to the classifier: either sub-dict
may be absent (the code defaults them to empty dicts). -/
structure WeatherData where
  current_weather : Option CurrentWeatherDict
  daily : Option DailyDict

/-- The 4-tuple returned by `generate_weather_based_alert`. -/
structure AlertTuple where
  alert_type : String
  urgency : String
  alert_message : String
  action_items : List String
  deriving Repr, DecidableEq

/-- Embedding of `generate_weather_based_alert` (`server.py:236-294`):
a six-rule first-match classifier on current temperature, current wind
speed and the summed 3-day precipitation forecast. -/
def generate_weather_based_alert (weather_data : WeatherData)
    (crop crop_stage village district : String) : AlertTuple :=
  let current_weather := weather_data.current_weather.getD ⟨none, none⟩
  let daily_forecast := weather_data.daily.getD ⟨none⟩
  let current_temp := current_weather.temperature.getD 25
  let current_windspeed := current_weather.windspeed.getD 10
  let precipitation_list := daily_forecast.precipitation_sum.getD [0, 0, 0]
  let next_3_days_rain := if precipitation_list = [] then 0 else (precipitation_list.take 3).sum
  if next_3_days_rain > 25 then
    { alert_type := "heavy_rain_warning", urgency := "high",
      alert_message := "Heavy rainfall (" ++ fmt1 next_3_days_rain ++
        "mm) expected in next 3 days near " ++ village ++ ", " ++ district ++
        ". " ++ crop ++ " at " ++ crop_stage ++
        " stage may be affected. Delay fertilizer application and ensure proper drainage.",
      action_items := ["delay_fertilizer", "check_drainage", "monitor_crops",
        "prepare_harvest_protection"] }
  else if next_3_days_rain > 10 then
    { alert_type := "moderate_rain_warning", urgency := "medium",
      alert_message := "Moderate rainfall (" ++ fmt1 next_3_days_rain ++
        "mm) expected in next 3 days near " ++ village ++ ", " ++ district ++
        ". Monitor " ++ crop ++ " at " ++ crop_stage ++ " stage carefully.",
      action_items := ["monitor_soil", "check_drainage", "adjust_irrigation"] }
  else if next_3_days_rain < 2 ∧ current_temp > 35 then
    { alert_type := "heat_drought_warning", urgency := "high",
      alert_message := "High temperature (" ++ fmt1 current_temp ++
        "¬∞C) with minimal rainfall expected near " ++ village ++ ", " ++ district ++
        ". " ++ crop ++ " at " ++ crop_stage ++
        " stage needs extra care. Increase irrigation frequency.",
      action_items := ["increase_irrigation", "mulch_crops", "monitor_plant_stress"] }
  else if current_temp < 10 then
    { alert_type := "cold_warning", urgency := "medium",
      alert_message := "Low temperature (" ++ fmt1 current_temp ++
        "¬∞C) expected near " ++ village ++ ", " ++ district ++ ". Protect " ++
        crop ++ " crops from cold damage.",
      action_items := ["protect_crops", "cover_seedlings", "adjust_irrigation_timing"] }
  else if current_windspeed > 30 then
    { alert_type := "high_wind_warning", urgency := "medium",
      alert_message := "High winds (" ++ fmt1 current_windspeed ++
        " km/h) expected near " ++ village ++ ", " ++ district ++ ". Secure " ++
        crop ++ " crop supports and structures.",
      action_items := ["secure_supports", "check_structures", "monitor_damage"] }
  else
    { alert_type := "weather_update", urgency := "low",
      alert_message := "Normal weather conditions expected near " ++ village ++
        ", " ++ district ++ ". " ++ crop ++ " at " ++ crop_stage ++
        " stage. Temperature " ++ fmt1 current_temp ++ "¬∞C, rainfall " ++
        fmt1 next_3_days_rain ++ "mm.",
      action_items := ["routine_monitoring", "maintain_irrigation"] }

/-- Weather data built from plain current temperature, wind speed, and a
3-day precipitation list: the shape `generate_dynamic_alert` feeds the
classifier. -/
def mkWeatherData (t w : ℚ) (ps : List ℚ) : WeatherData :=
  ⟨some ⟨some t, some w⟩, some ⟨some ps⟩⟩

/-- The summed next-3-days precipitation as the classifier computes it. -/
def next3DaysRain (ps : List ℚ) : ℚ :=
  if ps = [] then 0 else (ps.take 3).sum

/-- The six-rule first-match classification exactly as the specification
words it, for comparison with the embedded code: returns the pair of
alert type and urgency. -/
def alertClassifierSpec (temp wind precip3day : ℚ) : String × String :=
  if precip3day > 25 then ("heavy_rain_warning", "high")
  else if precip3day > 10 then ("moderate_rain_warning", "medium")
  else if precip3day < 2 ∧ temp > 35 then ("heat_drought_warning", "high")
  else if temp < 10 then ("cold_warning", "medium")
  else if wind > 30 then ("high_wind_warning", "medium")
  else ("weather_update", "low")

/-! ## Crop calendar, server side (`server.py:66-200`) -/

/-- One value of the `CROP_CALENDAR` dict in `server.py`. -/
structure ServerCropData where
  season : String
  planting : String
  harvesting : String
  duration_days : ℕ
  stages : List String
  deriving DecidableEq, Repr

/-- Embedding of the `CROP_CALENDAR` dict of `server.py:67-108`. -/
def CROP_CALENDAR : List (String × ServerCropData) :=
  [("rice", ⟨"Kharif", "June-July", "October-November", 120,
      ["Nursery/Seedling", "Transplanting", "Vegetative", "Tillering",
       "Panicle Initiation", "Flowering", "Milk/Dough", "Maturity", "Harvesting"]⟩),
   ("wheat", ⟨"Rabi", "November-December", "March-April", 120,
      ["Sowing", "Germination", "Tillering", "Jointing", "Booting",
       "Heading", "Flowering", "Grain Filling", "Maturity", "Harvesting"]⟩),
   ("maize", ⟨"Kharif/Zaid", "June-July / March-April", "September-October / June", 110,
      ["Sowing", "Emergence", "Vegetative", "Tasseling", "Silking",
       "Grain Filling", "Maturity", "Harvesting"]⟩),
   ("sugarcane", ⟨"Annual", "February-March", "December-January", 300,
      ["Planting", "Germination", "Tillering", "Grand Growth",
       "Maturation", "Ripening", "Harvesting"]⟩),
   ("mustard", ⟨"Rabi", "October-November", "February-March", 110,
      ["Sowing", "Germination", "Rosette", "Stem Elongation",
       "Flowering", "Pod Formation", "Pod Filling", "Maturity", "Harvesting"]⟩)]

/-- Embedding of the `stage_mappings` dict local to the month-based
`estimate_crop_stage` (`server.py:188-194`): per crop, a month-to-index
table. -/
def stage_mappings : List (String × List (ℕ × ℕ)) :=
  [("rice", [(6, 0), (7, 1), (8, 2), (9, 3), (10, 4), (11, 5), (12, 6), (1, 7), (2, 8)]),
   ("wheat", [(11, 0), (12, 1), (1, 2), (2, 3), (3, 4), (4, 5)]),
   ("maize", [(6, 0), (7, 1), (8, 2), (9, 3), (10, 4), (11, 5), (3, 0), (4, 1), (5, 2)]),
   ("sugarcane", [(2, 0), (3, 1), (4, 2), (5, 3), (6, 3), (7, 3), (8, 4), (9, 4), (10, 5),
      (11, 6), (12, 6), (1, 6)]),
   ("mustard", [(10, 0), (11, 1), (12, 2), (1, 3), (2, 4), (3, 5)])]

/-- The stage index the month-based estimator computes for a crop found
in the calendar: the month lookup with default `len(stages) // 2`, then
clamped from above by `len(stages) - 1` (`server.py:196-198`). -/
def month_stage_index (crop : String) (stages : List String) (current_month : ℕ) : ℕ :=
  let crop_mapping := (pyLookup stage_mappings crop).getD []
  min ((pyLookup crop_mapping current_month).getD (stages.length / 2)) (stages.length - 1)

/-- Embedding of the month-based `estimate_crop_stage` of
`server.py:179-200`: unknown crops yield the sentinel `"Growing"`;
otherwise the stage at `month_stage_index` is returned (the final
`if stages else "Growing"` guard of the source is the emptiness check on
the stages list; the index access cannot fail since the index is clamped,
so the out-of-range default of `getD` is never used). -/
def estimate_crop_stage (crop : String) (current_month : ℕ) : String :=
  match pyLookup CROP_CALENDAR crop with
  | none => "Growing"
  | some crop_data =>
    let stages := crop_data.stages
    if stages = [] then "Growing"
    else (stages.get? (month_stage_index crop stages current_month)).getD ("")

/-! ## Crop calendar tools (`tools/crop_calendar_tools.py`) -/

namespace crop_calendar_tools

/-- One value of the `CROP_CALENDAR` dict in `crop_calendar_tools.py`
(no `duration_days` field on this copy). -/
structure CropData where
  season : String
  planting : String
  harvesting : String
  stages : List String
  deriving DecidableEq, Repr

/-- Embedding of the `CROP_CALENDAR` dict of `crop_calendar_tools.py:6-178`. -/
def CROP_CALENDAR : List (String × CropData) :=
  [("rice", ⟨"Kharif", "June-July", "October-November",
      ["Nursery/Seedling", "Transplanting", "Vegetative", "Tillering",
       "Panicle Initiation", "Flowering", "Milk/Dough", "Maturity", "Harvesting"]⟩),
   ("wheat", ⟨"Rabi", "November-December", "March-April",
      ["Sowing", "Germination", "Tillering", "Jointing", "Booting",
       "Heading", "Flowering", "Grain Filling", "Maturity", "Harvesting"]⟩),
   ("maize", ⟨"Kharif/Zaid", "June-July / March-April", "September-October / June",
      ["Sowing", "Emergence", "Vegetative", "Tasseling", "Silking",
       "Grain Filling", "Maturity", "Harvesting"]⟩),
   ("barley", ⟨"Rabi", "November", "March-April",
      ["Sowing", "Germination", "Tillering", "Jointing", "Booting",
       "Heading", "Flowering", "Grain Filling", "Maturity", "Harvesting"]⟩),
   ("gram", ⟨"Rabi", "October-November", "March-April",
      ["Sowing", "Germination", "Vegetative", "Flowering", "Pod Formation",
       "Pod Filling", "Maturity", "Harvesting"]⟩),
   ("lentil", ⟨"Rabi", "October-November", "March-April",
      ["Sowing", "Germination", "Vegetative", "Flowering", "Pod Formation",
       "Pod Filling", "Maturity", "Harvesting"]⟩),
   ("pea", ⟨"Rabi", "October-November", "February-March",
      ["Sowing", "Germination", "Vegetative", "Flowering", "Pod Formation",
       "Pod Filling", "Maturity", "Harvesting"]⟩),
   ("mustard", ⟨"Rabi", "October-November", "February-March",
      ["Sowing", "Germination", "Rosette", "Stem Elongation", "Flowering",
       "Pod Formation", "Pod Filling", "Maturity", "Harvesting"]⟩),
   ("linseed", ⟨"Rabi", "October-November", "March-April",
      ["Sowing", "Germination", "Vegetative", "Flowering", "Capsule Formation",
       "Seed Filling", "Maturity", "Harvesting"]⟩),
   ("potato", ⟨"Rabi", "October-November", "February-March",
      ["Planting", "Sprouting", "Vegetative", "Tuber Initiation", "Tuber Bulking",
       "Maturity", "Harvesting"]⟩),
   ("arhar", ⟨"Kharif", "June-July", "November-December",
      ["Sowing", "Germination", "Vegetative", "Flowering", "Pod Formation",
       "Pod Filling", "Maturity", "Harvesting"]⟩),
   ("moong", ⟨"Kharif/Zaid", "June-July / March-April", "September-October / June",
      ["Sowing", "Germination", "Vegetative", "Flowering", "Pod Formation",
       "Pod Filling", "Maturity", "Harvesting"]⟩),
   ("urd", ⟨"Kharif/Zaid", "June-July / March-April", "September-October / June",
      ["Sowing", "Germination", "Vegetative", "Flowering", "Pod Formation",
       "Pod Filling", "Maturity", "Harvesting"]⟩),
   ("jowar", ⟨"Kharif", "June-July", "September-October",
      ["Sowing", "Germination", "Vegetative", "Booting", "Flowering",
       "Grain Filling", "Maturity", "Harvesting"]⟩),
   ("bajra", ⟨"Kharif", "June-July", "September-October",
      ["Sowing", "Germination", "Vegetative", "Booting", "Flowering",
       "Grain Filling", "Maturity", "Harvesting"]⟩),
   ("groundnut", ⟨"Kharif", "June-July", "September-October",
      ["Sowing", "Germination", "Vegetative", "Flowering", "Pegging",
       "Pod Formation", "Pod Filling", "Maturity", "Harvesting"]⟩),
   ("soybean", ⟨"Kharif", "June-July", "September-October",
      ["Sowing", "Germination", "Vegetative", "Flowering", "Pod Formation",
       "Pod Filling", "Maturity", "Harvesting"]⟩),
   ("watermelon", ⟨"Zaid", "March-April", "May-June",
      ["Sowing", "Germination", "Vegetative", "Flowering", "Fruit Setting",
       "Fruit Development", "Maturity", "Harvesting"]⟩),
   ("cucumber", ⟨"Zaid", "March-April", "May-June",
      ["Sowing", "Germination", "Vegetative", "Flowering", "Fruit Setting",
       "Fruit Development", "Maturity", "Harvesting"]⟩)]

/-- Embedding of the `crop_durations` dict local to the date-based
`estimate_crop_stage` (`crop_calendar_tools.py:217-222`). -/
def crop_durations : List (String × ℕ) :=
  [("rice", 120), ("wheat", 120), ("maize", 110), ("barley", 110), ("gram", 110),
   ("lentil", 110), ("pea", 100), ("mustard", 110), ("linseed", 110), ("potato", 100),
   ("arhar", 150), ("moong", 70), ("urd", 70), ("jowar", 100), ("bajra", 90),
   ("groundnut", 110), ("soybean", 100), ("watermelon", 80), ("cucumber", 70)]

end crop_calendar_tools

/-- A parsed Gregorian calendar date, the result of a successful
`date.fromisoformat` (the three fields of a valid `datetime.date`). -/
structure PyDate where
  year : ℕ
  month : ℕ
  day : ℕ
  deriving DecidableEq, Repr

/-- Cumulative day counts used by the proleptic Gregorian ordinal:
days in the twelve months of a non-leap year. -/
def daysInMonths : List ℕ := [31, 28, 31, 30, 31, 30, 31, 31, 30, 31, 30, 31]

/-- Gregorian leap-year test, as `datetime` implements it. -/
def isLeapYear (y : ℕ) : Bool :=
  (y % 4 = 0 && y % 100 != 0) || y % 400 = 0

/-- Days in the given year that precede the first day of the given
month. -/
def daysBeforeMonth (y m : ℕ) : ℕ :=
  (daysInMonths.take (m - 1)).sum + (if 2 < m ∧ isLeapYear y then 1 else 0)

/-- Python `date.toordinal()`: the proleptic Gregorian ordinal, with
0001-01-01 mapped to 1. -/
def toordinal (d : PyDate) : ℕ :=
  365 * (d.year - 1) + (d.year - 1) / 4 - (d.year - 1) / 100 + (d.year - 1) / 400
    + daysBeforeMonth d.year d.month + d.day

/-- The number of days from `plant` to `current`, as Python computes
`(current_date - plant_date).days`; negative when `current` is the
earlier date. -/
def daysSince (plant current : PyDate) : ℤ :=
  (toordinal current : ℤ) - (toordinal plant : ℤ)

/-- Python list indexing `l[i]` for an `int` index: negative indices
count from the end; out-of-range access is an `IndexError`. -/
def pyListGet (l : List String) (i : ℤ) : Except String String :=
  let j : ℤ := if i < 0 then i + l.length else i
  if 0 ≤ j then
    match l.get? j.toNat with
    | some x => Except.ok x
    | none => Except.error ("IndexError")
  else Except.error ("IndexError")

deriving instance DecidableEq for Except

/-- The result dict of the date-based `estimate_crop_stage`: either a
`stage` entry or the `error` entry for an unknown crop. -/
inductive CropStageResult where
  | stage (s : String)
  | errorCropNotFound
  deriving DecidableEq, Repr

namespace crop_calendar_tools

/-- The stage index the date-based estimator computes for a crop found
in the calendar: `min(days_since_planting // stage_length, len(stages) - 1)`
with `stage_length = total_duration // len(stages)`
(`crop_calendar_tools.py:224-225`); `//` is Python floor division. -/
def date_stage_index (stages : List String) (total_duration : ℕ) (days : ℤ) : ℤ :=
  min (Int.fdiv days (total_duration / stages.length : ℕ)) ((stages.length : ℤ) - 1)

/-- Embedding of the date-based `estimate_crop_stage` of
`crop_calendar_tools.py:208-227`. The two date strings are taken already
parsed (an invalid ISO string raises in `date.fromisoformat` before this
logic runs). A zero `stage_length` would make the index computation a
`ZeroDivisionError`; an out-of-range index raises `IndexError`. -/
def estimate_crop_stage (crop : String) (plant_date current_date : PyDate) :
    Except String CropStageResult :=
  let days_since_planting := daysSince plant_date current_date
  let cropL := pyLower crop
  match pyLookup CROP_CALENDAR cropL with
  | some crop_data =>
    let stages := crop_data.stages
    let total_duration := (pyLookup crop_durations cropL).getD 100
    if total_duration / stages.length = 0 then Except.error ("ZeroDivisionError")
    else
      match pyListGet stages (date_stage_index stages total_duration days_since_planting) with
      | Except.ok s => Except.ok (CropStageResult.stage s)
      | Except.error e => Except.error e
  | none => Except.ok CropStageResult.errorCropNotFound

end crop_calendar_tools

/-! ## Alert id, derived weather numbers (`server.py:420-436`) -/

/-- Python `str.upper()` on a sequence of code points (faithful for the
ASCII place names involved). -/
def pyUpper (s : List Char) : List Char := s.map Char.toUpper

/-- Embedding of the `alert_id` construction of `server.py:436`:
`state.upper()[:2] + "_" + district.upper()[:3] + "_" +
village.upper()[:3] + "_" + timestamp`, with the `strftime` timestamp
taken as a parameter. -/
def mkAlertId (state district village ts : List Char) : List Char :=
  (pyUpper state).take 2 ++ ['_'] ++ (pyUpper district).take 3 ++ ['_']
    ++ (pyUpper village).take 3 ++ ['_'] ++ ts

/-- The alert-id format exactly as the specification words it
(`{STATE3}_{DISTRICT3}_{VILLAGE3}_{ts}`: all three prefixes uppercased
and truncated to three characters), for comparison with the code. -/
def alertIdSpecClaim (state district village ts : List Char) : List Char :=
  (pyUpper state).take 3 ++ ['_'] ++ (pyUpper district).take 3 ++ ['_']
    ++ (pyUpper village).take 3 ++ ['_'] ++ ts

/-- The amended alert-id format: the state prefix is uppercased and
truncated to two characters, district and village to three. -/
def alertIdSpecAmended (state district village ts : List Char) : List Char :=
  (pyUpper state).take 2 ++ ['_'] ++ (pyUpper district).take 3 ++ ['_']
    ++ (pyUpper village).take 3 ++ ['_'] ++ ts

/-- Embedding of the derived rain probability of `server.py:422`:
`min(90, max(10, int(next_3_days_rain * 10))) if next_3_days_rain > 0
else 10`. -/
def rain_probability (next_3_days_rain : ℚ) : ℤ :=
  if next_3_days_rain > 0 then min 90 (max 10 (pyInt (next_3_days_rain * 10))) else 10

/-- Embedding of the derived humidity of `server.py:423`:
`min(95, max(40, 60 + int(next_3_days_rain * 2)))`. -/
def estimated_humidity (next_3_days_rain : ℚ) : ℤ :=
  min 95 (max 40 (60 + pyInt (next_3_days_rain * 2)))

/-- Standard rounding to the nearest integer (used by the
specification's `round(...)` formula; the counterexample inputs are not
ties, so the tie-breaking convention is irrelevant). -/
def specRound (q : ℚ) : ℤ := ratFloor (q + 1 / 2)

/-- The rain-probability formula exactly as the specification words it:
`clamp(10, 90, round(precip3day * 10))`, or 10 if `precip3day ≤ 0`. -/
def rainProbabilityClaim (precip3day : ℚ) : ℤ :=
  if precip3day > 0 then min 90 (max 10 (specRound (precip3day * 10))) else 10

/-- The humidity formula exactly as the specification words it:
`clamp(40, 95, 60 + round(precip3day * 2))`. -/
def humidityClaim (precip3day : ℚ) : ℤ :=
  min 95 (max 40 (60 + specRound (precip3day * 2)))

/-- The amended rain-probability formula: truncation toward zero
(Python `int`) in place of rounding. -/
def rainProbabilityAmended (precip3day : ℚ) : ℤ :=
  if precip3day > 0 then min 90 (max 10 (pyInt (precip3day * 10))) else 10

/-- The amended humidity formula: truncation toward zero (Python `int`)
in place of rounding. -/
def humidityAmended (precip3day : ℚ) : ℤ :=
  min 95 (max 40 (60 + pyInt (precip3day * 2)))

/-! ## AI enhancement (`server.py:296-356`, `server.py:456-465`) -/

/-- The dict `generate_ai_alert` returns on success
(`server.py:347-352`). -/
structure AIAnalysis where
  alert : String
  impact : String
  recommendations : String
  enhanced_message : String
  deriving DecidableEq, Repr

/-- What the ai tool call inside `generate_ai_alert` produced when it did
not raise: either a dict (with the three optional keys the code reads)
or any other value, kept as its `str(...)` rendering. -/
inductive AIRaw where
  | dict (alert impact recommendations : Option String)
  | other (s : String)

/-- Embedding of `generate_ai_alert` (`server.py:296-356`): returns
`None` when no OpenAI key is configured; the whole body is wrapped in
`try/except`, so any raise from the weather fetches or the alert tool
also yields `None` (the `toolResult` parameter stands for that guarded
computation); otherwise the enhanced-message dict is assembled. -/
def generate_ai_alert (openai_key : Option String) (toolResult : Except String AIRaw)
    (crop crop_stage village district : String) : Option AIAnalysis :=
  match openai_key with
  | none => none
  | some _ =>
    match toolResult with
    | Except.error _ => none
    | Except.ok ai_alert =>
      let alert_description := match ai_alert with
        | AIRaw.dict a _ _ => a.getD ("Weather update for agricultural activities")
        | AIRaw.other s => s
      let impact_description := match ai_alert with
        | AIRaw.dict _ i _ => i.getD ("Monitor crops regularly")
        | AIRaw.other _ => "Monitor crops regularly"
      let recommendations := match ai_alert with
        | AIRaw.dict _ _ r => r.getD ("Continue routine farming activities")
        | AIRaw.other _ => "Follow weather updates and maintain good practices"
      let base := "ü§ñ AI Weather Alert for " ++ village ++ ", " ++ district ++ ": "
        ++ alert_description
      let alert_message :=
        if impact_description ≠ "" ∧
            pyLower impact_description ∉ (["none", "n/a", ""] : List String) then
          base ++ " üåæ Crop Impact (" ++ crop ++ " - " ++ crop_stage ++ "): "
            ++ impact_description
        else base
      some ⟨alert_description, impact_description, recommendations, alert_message⟩

/-- The `alert` sub-dict of the assembled `AlertRecord`
(`server.py:456-463`). -/
structure AlertSection where
  type : String
  urgency : String
  message : String
  action_items : List String
  ai_generated : Bool
  deriving DecidableEq, Repr

/-- Embedding of the `alert` sub-dict assembly of `server.py:456-463`:
the message is the AI `enhanced_message` when an AI analysis is present,
the template classifier message otherwise, and `ai_generated` records
exactly that presence (the `valid_until` timestamp field is elided). -/
def buildAlertSection (alert_type urgency alert_message : String)
    (action_items : List String) (ai_analysis : Option AIAnalysis) : AlertSection :=
  { type := alert_type, urgency := urgency,
    message := match ai_analysis with
      | some a => a.enhanced_message
      | none => alert_message,
    action_items := action_items,
    ai_generated := ai_analysis.isSome }

/-! ## SMS agent (`a2a_agents/sms_agent.py`) -/

/-- Python `str.replace(pat, rep)` on code-point sequences: all
non-overlapping occurrences, scanned left to right.  An empty pattern is
kept as the identity (Python would interleave the replacement; no
translation key is empty). -/
def listReplace (pat rep : List Char) : List Char → List Char
  | [] => []
  | c :: cs =>
    if pat ≠ [] ∧ pat.isPrefixOf (c :: cs) then
      rep ++ listReplace pat rep (List.drop (pat.length - 1) cs)
    else c :: listReplace pat rep cs
termination_by l => l.length
decreasing_by
  · simp only [List.length_drop, List.length_cons]
    omega
  · simp only [List.length_cons]
    omega

/-- Embedding of the `translations` dict of `sms_agent.py:8-25`, in
insertion order. -/
def translations : List (String × String) :=
  [("Heavy rainfall", "भारी वर्षा"),
   ("expected in next 2 days.", "अगले 2 दिनों में अपेक्षित।"),
   ("Delay fertilizer application.", "उर्वरक आवेदन में देरी करें।"),
   ("Ensure proper drainage.", "उचित जल निकासी सुनिश्चित करें।"),
   ("rice", "चावल"),
   ("flowering", "फूल"),
   ("weather_warning", "मौसम की चेतावनी"),
   ("high", "उच्च"),
   ("Kumhrar", "कुम्हरार"),
   ("Patna", "पटना"),
   ("Bihar", "बिहार"),
   ("Alert", "चेतावनी"),
   ("Crop", "फसल"),
   ("Stage", "चरण"),
   ("Urgency", "तात्कालिकता"),
   ("Action", "कार्य")]

/-- Embedding of `to_hindi` (`sms_agent.py:3-28`): sequential
`str.replace` over the translation pairs in dict order. -/
def to_hindi (text : String) : String :=
  translations.foldl (fun t p => ⟨listReplace p.1.data p.2.data t.data⟩) text

/-- The `crop` sub-dict fields `create_sms_message` reads. -/
structure SmsCrop where
  name : String
  stage : String

/-- The `alert` sub-dict fields `create_sms_message` reads. -/
structure SmsAlert where
  type : String
  urgency : String
  message : String

/-- The alert JSON fields `create_sms_message` reads. -/
structure SmsAlertJson where
  crop : SmsCrop
  alert : SmsAlert

/-- Embedding of `create_sms_message` (`sms_agent.py:30-44`): format the
translated fields, then truncate to 160 code points with `message[:160]`. -/
def create_sms_message (alert_json : SmsAlertJson) : String :=
  let message :=
    to_hindi ("Alert") ++ ": " ++ to_hindi (alert_json.alert.type) ++ ", " ++
    to_hindi ("Crop") ++ ": " ++ to_hindi (alert_json.crop.name) ++ ", " ++
    to_hindi ("Stage") ++ ": " ++ to_hindi (alert_json.crop.stage) ++ ", " ++
    to_hindi ("Urgency") ++ ": " ++ to_hindi (alert_json.alert.urgency) ++ ". " ++
    to_hindi (alert_json.alert.message)
  ⟨message.data.take 160⟩

/-! ## Location coordinates (`server.py:202-234`) -/

/-- The dict returned by `geographic_tools.reverse_geocode`: whether an
`error` key is present, and the optional `latitude` and `longitude`
keys. -/
structure GeoDict where
  hasError : Bool
  latitude : Option ℚ
  longitude : Option ℚ

/-- One geocoding attempt of `get_location_coordinates`: `none` when the
call raised, the dict carries an `error` key, the `latitude` key is
missing, or (a `KeyError` caught by the same `except`) the `longitude`
key is missing; otherwise the coordinate pair `[lat, lon]`. -/
def geocodeCoords : Except String GeoDict → Option (List ℚ)
  | Except.error _ => none
  | Except.ok d =>
    if !d.hasError && d.latitude.isSome then
      match d.latitude, d.longitude with
      | some la, some lo => some [la, lo]
      | _, _ => none
    else none

/-- Embedding of `get_location_coordinates` (`server.py:202-234`): try
village geocoding, fall back to district geocoding, and finally to the
fixed Patna coordinates.  Every exception of the two attempts is caught,
so the embedding is a total function: the code never raises. -/
def get_location_coordinates (villageRes districtRes : Except String GeoDict)
    (village district : String) : List ℚ × String :=
  match geocodeCoords villageRes with
  | some c => (c, "village_" ++ village)
  | none =>
    match geocodeCoords districtRes with
    | some c => (c, "district_" ++ district)
    | none => ([25.5941, 85.1376], "fallback_patna")

/-! ## Theorems -/

/-- C3: the season classifier is total over months 1..12, the three
season sets partition the months with no gaps or overlaps (months 6-9
map to kharif, 10-12 and 1-3 to rabi, 4-5 to zaid), and the two copies
of the function in `server.py` and `bihar_agmcp_server.py` agree on
every month. -/
theorem C3_season_partition :
    ∀ m ∈ ([1, 2, 3, 4, 5, 6, 7, 8, 9, 10, 11, 12] : List ℕ),
      (get_current_season m = "kharif" ↔ m ∈ ([6, 7, 8, 9] : List ℕ)) ∧
      (get_current_season m = "rabi" ↔ m ∈ ([10, 11, 12, 1, 2, 3] : List ℕ)) ∧
      (get_current_season m = "zaid" ↔ m ∈ ([4, 5] : List ℕ)) ∧
      bihar_get_current_season m = get_current_season m := by decide

/-- Witness for C3 at the concrete month 6: the partition theorem applied
at a June input yields kharif in both copies. -/
theorem C3_season_partition_witness :
    get_current_season 6 = "kharif" ∧ bihar_get_current_season 6 = get_current_season 6 := by
  have h := C3_season_partition 6 (by decide)
  exact ⟨h.1.mpr (by decide), h.2.2.2⟩

/-- C1: the alert classifier evaluates its six rules in fixed first-match
order on temperature, wind speed and the 3-day precipitation sum, agreeing
with the specification's rule table for all inputs; in particular
(temp=36, wind=35, precip3day=26) yields heavy_rain_warning,
(36, 5, 1) heat_drought_warning, (5, 5, 1) cold_warning,
(25, 35, 1) high_wind_warning, and (25, 5, 1) weather_update. -/
theorem C1_alert_classifier_first_match :
    (∀ (t w : ℚ) (ps : List ℚ) (crop stage village district : String),
      ((generate_weather_based_alert (mkWeatherData t w ps) crop stage village district).alert_type,
       (generate_weather_based_alert (mkWeatherData t w ps) crop stage village district).urgency)
        = alertClassifierSpec t w (next3DaysRain ps)) ∧
    (let run := fun (t w : ℚ) (ps : List ℚ) =>
      ((generate_weather_based_alert (mkWeatherData t w ps) "rice" "Flowering" "Kumhrar" "patna").alert_type,
       (generate_weather_based_alert (mkWeatherData t w ps) "rice" "Flowering" "Kumhrar" "patna").urgency)
     run 36 35 [26, 0, 0] = ("heavy_rain_warning", "high") ∧
     run 36 5 [1, 0, 0] = ("heat_drought_warning", "high") ∧
     run 5 5 [1, 0, 0] = ("cold_warning", "medium") ∧
     run 25 35 [1, 0, 0] = ("high_wind_warning", "medium") ∧
     run 25 5 [1, 0, 0] = ("weather_update", "low")) := by
  constructor
  · intro t w ps crop stage village district
    unfold generate_weather_based_alert alertClassifierSpec mkWeatherData next3DaysRain
    dsimp only [Option.getD]
    split_ifs <;> rfl
  · exact ⟨by decide, by decide, by decide, by decide, by decide⟩

/-- Helper: the date-based stage index is in `[0, len(stages)-1]` for a
non-empty stages list and a non-negative day count. -/
theorem date_stage_index_mem (stages : List String) (total : ℕ) (days : ℤ)
    (hlen : 0 < stages.length) (hd : 0 ≤ days) :
    0 ≤ crop_calendar_tools.date_stage_index stages total days ∧
    crop_calendar_tools.date_stage_index stages total days < stages.length := by
  unfold crop_calendar_tools.date_stage_index
  constructor
  · refine le_min (Int.fdiv_nonneg hd (by positivity)) (by omega)
  · have h := min_le_right (Int.fdiv days ((total / stages.length : ℕ) : ℤ))
      ((stages.length : ℤ) - 1)
    omega

/-- Helper: Python list indexing succeeds and returns a list element when
the integer index is already in range. -/
theorem pyListGet_ok (l : List String) (i : ℤ) (h0 : 0 ≤ i) (hl : i < l.length) :
    ∃ s, pyListGet l i = Except.ok s ∧ s ∈ l := by
  have hnat : i.toNat < l.length := by omega
  refine ⟨l.get ⟨i.toNat, hnat⟩, ?_, List.get_mem l i.toNat hnat⟩
  unfold pyListGet
  dsimp only
  rw [if_neg (not_lt.mpr h0), if_pos h0, List.get?_eq_get hnat]

/-- Helper: for a crop found in the tools calendar with a positive stage
length and a current date not before the planting date, the date-based
estimator returns a stage drawn from the crop's stages list. -/
theorem estimate_date_ok_of_found (crop : String) (cd : crop_calendar_tools.CropData)
    (plant current : PyDate)
    (hc : pyLookup crop_calendar_tools.CROP_CALENDAR (pyLower crop) = some cd)
    (hsl : 1 ≤ ((pyLookup crop_calendar_tools.crop_durations (pyLower crop)).getD 100)
      / cd.stages.length)
    (hlen : 0 < cd.stages.length)
    (hd : 0 ≤ daysSince plant current) :
    ∃ s, crop_calendar_tools.estimate_crop_stage crop plant current
        = Except.ok (CropStageResult.stage s) ∧ s ∈ cd.stages := by
  have hix := date_stage_index_mem cd.stages
    ((pyLookup crop_calendar_tools.crop_durations (pyLower crop)).getD 100)
    (daysSince plant current) hlen hd
  obtain ⟨s, hs, hmem⟩ := pyListGet_ok cd.stages
    (crop_calendar_tools.date_stage_index cd.stages
      ((pyLookup crop_calendar_tools.crop_durations (pyLower crop)).getD 100)
      (daysSince plant current)) hix.1 (by exact_mod_cast hix.2)
  refine ⟨s, ?_, hmem⟩
  unfold crop_calendar_tools.estimate_crop_stage
  dsimp only
  rw [hc]
  dsimp only
  rw [if_neg (by omega), hs]

/-- C2 counterexample: for crop `rice` with a current date one day before
the planting date, the day difference is -1 and the computed stage index
is -1, outside `[0, len(stages)-1]`; Python's negative indexing silently
selects the last stage `Harvesting`.  For a current date 122 days before
planting the index is -10 and the lookup raises `IndexError`.  The claim
that the planting-date-based estimator always selects a clamped,
non-negative index is therefore false. -/
theorem C2_counterexample_negative_index :
    daysSince ⟨2025, 6, 15⟩ ⟨2025, 6, 14⟩ = -1 ∧
    crop_calendar_tools.date_stage_index
      ["Nursery/Seedling", "Transplanting", "Vegetative", "Tillering",
       "Panicle Initiation", "Flowering", "Milk/Dough", "Maturity", "Harvesting"]
      120 (daysSince ⟨2025, 6, 15⟩ ⟨2025, 6, 14⟩) = -1 ∧
    crop_calendar_tools.estimate_crop_stage ("rice") ⟨2025, 6, 15⟩ ⟨2025, 6, 14⟩
      = Except.ok (CropStageResult.stage ("Harvesting")) ∧
    daysSince ⟨2021, 1, 1⟩ ⟨2020, 9, 1⟩ = -122 ∧
    crop_calendar_tools.estimate_crop_stage ("rice") ⟨2021, 1, 1⟩ ⟨2020, 9, 1⟩
      = Except.error ("IndexError") :=
  ⟨by decide, by decide, by decide, by decide, by decide⟩

/-- C2 amended: the month-based estimator's stage index is always in
`[0, len(stages)-1]` for every crop of the server calendar and every
month (ℕ indices are non-negative by construction and the index is
clamped from above), and the planting-date-based estimator's stage index
is in `[0, len(stages)-1]` for every crop of the tools calendar whenever
the current date is not before the planting date, in which case a stage
from the crop's non-empty stages list is returned; for a current date
earlier than the planting date the date-based index can be negative. -/
theorem C2_stage_index_clamped :
    (∀ p ∈ CROP_CALENDAR, p.2.stages ≠ [] ∧
      ∀ m : ℕ, month_stage_index p.1 p.2.stages m < p.2.stages.length) ∧
    (∀ p ∈ crop_calendar_tools.CROP_CALENDAR, ∀ plant current : PyDate,
      0 ≤ daysSince plant current →
      (0 ≤ crop_calendar_tools.date_stage_index p.2.stages
          ((pyLookup crop_calendar_tools.crop_durations p.1).getD 100)
          (daysSince plant current) ∧
       crop_calendar_tools.date_stage_index p.2.stages
          ((pyLookup crop_calendar_tools.crop_durations p.1).getD 100)
          (daysSince plant current) < p.2.stages.length) ∧
      ∃ s, crop_calendar_tools.estimate_crop_stage p.1 plant current
          = Except.ok (CropStageResult.stage s) ∧ s ∈ p.2.stages) := by
  constructor
  · intro p hp
    have hlen : 0 < p.2.stages.length := by fin_cases hp <;> decide
    refine ⟨List.length_pos.mp hlen, fun m => ?_⟩
    unfold month_stage_index
    exact lt_of_le_of_lt (min_le_right _ _) (Nat.sub_lt hlen one_pos)
  · intro p hp plant current hd
    have hlen : 0 < p.2.stages.length := by fin_cases hp <;> decide
    have hc : pyLookup crop_calendar_tools.CROP_CALENDAR (pyLower p.1) = some p.2 := by
      fin_cases hp <;> decide
    have hsl : 1 ≤ ((pyLookup crop_calendar_tools.crop_durations (pyLower p.1)).getD 100)
        / p.2.stages.length := by
      fin_cases hp <;> decide
    have hkey : pyLower p.1 = p.1 := by fin_cases hp <;> decide
    refine ⟨?_, ?_⟩
    · have := date_stage_index_mem p.2.stages
        ((pyLookup crop_calendar_tools.crop_durations p.1).getD 100)
        (daysSince plant current) hlen hd
      exact this
    · have h := estimate_date_ok_of_found p.1 p.2 plant current hc hsl hlen hd
      exact h

/-- Witness for C2: the amended theorem applied at crop `rice`, month 7,
and the date pair 2025-06-15 to 2025-07-01 (16 days, non-negative). -/
theorem C2_stage_index_clamped_witness :
    month_stage_index ("rice")
      ["Nursery/Seedling", "Transplanting", "Vegetative", "Tillering",
       "Panicle Initiation", "Flowering", "Milk/Dough", "Maturity", "Harvesting"] 7
      < (["Nursery/Seedling", "Transplanting", "Vegetative", "Tillering",
       "Panicle Initiation", "Flowering", "Milk/Dough", "Maturity", "Harvesting"] :
         List String).length ∧
    ∃ s, crop_calendar_tools.estimate_crop_stage ("rice") ⟨2025, 6, 15⟩ ⟨2025, 7, 1⟩
        = Except.ok (CropStageResult.stage s) ∧
      s ∈ (["Nursery/Seedling", "Transplanting", "Vegetative", "Tillering",
       "Panicle Initiation", "Flowering", "Milk/Dough", "Maturity", "Harvesting"] :
         List String) := by
  constructor
  · exact (C2_stage_index_clamped.1
      ("rice", ⟨"Kharif", "June-July", "October-November", 120,
        ["Nursery/Seedling", "Transplanting", "Vegetative", "Tillering",
         "Panicle Initiation", "Flowering", "Milk/Dough", "Maturity", "Harvesting"]⟩)
      (by decide)).2 7
  · exact ((C2_stage_index_clamped.2
      ("rice", ⟨"Kharif", "June-July", "October-November",
        ["Nursery/Seedling", "Transplanting", "Vegetative", "Tillering",
         "Panicle Initiation", "Flowering", "Milk/Dough", "Maturity", "Harvesting"]⟩)
      (by decide)) ⟨2025, 6, 15⟩ ⟨2025, 7, 1⟩ (by decide)).2

/-- C4 counterexample: for the unknown crop `quinoa`, the
planting-date-based estimator returns the error dict
`{"error": "Crop not found"}`, not the `Growing` sentinel the claim
states. -/
theorem C4_counterexample_error_dict :
    crop_calendar_tools.estimate_crop_stage ("quinoa") ⟨2025, 6, 15⟩ ⟨2025, 7, 1⟩
      = Except.ok CropStageResult.errorCropNotFound ∧
    (Except.ok CropStageResult.errorCropNotFound :
        Except String CropStageResult)
      ≠ Except.ok (CropStageResult.stage ("Growing")) :=
  ⟨by decide, by decide⟩

/-- C4 amended: for every crop name absent from the respective calendar
table, the month-based estimator returns the sentinel `Growing`, while
the planting-date-based estimator returns the error dict
`{"error": "Crop not found"}` rather than the `Growing` sentinel. -/
theorem C4_unknown_crop :
    (∀ crop, pyLookup CROP_CALENDAR crop = none →
      ∀ m, estimate_crop_stage crop m = "Growing") ∧
    (∀ crop, pyLookup crop_calendar_tools.CROP_CALENDAR (pyLower crop) = none →
      ∀ plant current, crop_calendar_tools.estimate_crop_stage crop plant current
          = Except.ok CropStageResult.errorCropNotFound) := by
  constructor
  · intro crop h m
    unfold estimate_crop_stage
    rw [h]
  · intro crop h plant current
    unfold crop_calendar_tools.estimate_crop_stage
    dsimp only
    rw [h]

/-- Witness for C4 at the concrete unknown crop `quinoa`. -/
theorem C4_unknown_crop_witness :
    estimate_crop_stage ("quinoa") 7 = "Growing" ∧
    crop_calendar_tools.estimate_crop_stage ("quinoa") ⟨2025, 6, 15⟩ ⟨2025, 7, 1⟩
      = Except.ok CropStageResult.errorCropNotFound :=
  ⟨C4_unknown_crop.1 ("quinoa") (by decide) 7,
   C4_unknown_crop.2 ("quinoa") (by decide) ⟨2025, 6, 15⟩ ⟨2025, 7, 1⟩⟩

/-- C8: for every crop key of the tools crop calendar, the stages list is
non-empty and the integer stage length `total_duration // len(stages)` is
at least 1 (every crop's nominal duration, or the default 100, is at
least the number of its stages), so `days_since_planting // stage_length`
never divides by zero. -/
theorem C8_stage_length_positive :
    ∀ p ∈ crop_calendar_tools.CROP_CALENDAR,
      p.2.stages ≠ [] ∧
      1 ≤ ((pyLookup crop_calendar_tools.crop_durations p.1).getD 100)
        / p.2.stages.length := by decide

/-- Witness for C8 at the concrete crop `rice`: duration 120, 9 stages,
stage length 13 ≥ 1. -/
theorem C8_stage_length_positive_witness :
    1 ≤ ((pyLookup crop_calendar_tools.crop_durations ("rice")).getD 100)
      / (["Nursery/Seedling", "Transplanting", "Vegetative", "Tillering",
          "Panicle Initiation", "Flowering", "Milk/Dough", "Maturity", "Harvesting"] :
           List String).length :=
  (C8_stage_length_positive
    ("rice", ⟨"Kharif", "June-July", "October-November",
      ["Nursery/Seedling", "Transplanting", "Vegetative", "Tillering",
       "Panicle Initiation", "Flowering", "Milk/Dough", "Maturity", "Harvesting"]⟩)
    (by decide)).2

/-- C5 counterexample: for state `bihar`, district `patna`, village
`kumhrar` and a fixed timestamp, the code produces
`BI_PAT_KUM_20250723_060000` — the state prefix has two characters, not
the three the claimed `{STATE3}` format requires. -/
theorem C5_counterexample_state_prefix :
    mkAlertId ("bihar".data) ("patna".data) ("kumhrar".data) ("20250723_060000".data)
      = ("BI_PAT_KUM_20250723_060000".data) ∧
    mkAlertId ("bihar".data) ("patna".data) ("kumhrar".data) ("20250723_060000".data)
      ≠ alertIdSpecClaim ("bihar".data) ("patna".data) ("kumhrar".data)
          ("20250723_060000".data) :=
  ⟨by decide, by decide⟩

/-- C5 amended: the alert id has the format
`{STATE2}_{DISTRICT3}_{VILLAGE3}_{timestamp}` — the state prefix is
uppercased and truncated to exactly two characters (for names of length
at least 2), the district and village prefixes to exactly three (for
names of length at least 3), followed by the generation timestamp. -/
theorem C5_alert_id_format :
    (∀ state district village ts : List Char,
      mkAlertId state district village ts = alertIdSpecAmended state district village ts) ∧
    (∀ state district village ts : List Char,
      2 ≤ state.length → 3 ≤ district.length → 3 ≤ village.length →
      ((pyUpper state).take 2).length = 2 ∧
      ((pyUpper district).take 3).length = 3 ∧
      ((pyUpper village).take 3).length = 3 ∧
      (mkAlertId state district village ts).length = 11 + ts.length) := by
  refine ⟨fun s d v ts => rfl, fun s d v ts hs hd hv => ?_⟩
  simp only [mkAlertId, pyUpper, List.length_append, List.length_take, List.length_map,
    List.length_cons, List.length_nil]
  omega

/-- Witness for C5 at the concrete inputs bihar, patna, kumhrar and a
fixed timestamp of 15 characters. -/
theorem C5_alert_id_format_witness :
    mkAlertId ("bihar".data) ("patna".data) ("kumhrar".data) ("20250723_060000".data)
      = alertIdSpecAmended ("bihar".data) ("patna".data) ("kumhrar".data)
          ("20250723_060000".data) ∧
    (mkAlertId ("bihar".data) ("patna".data) ("kumhrar".data)
        ("20250723_060000".data)).length = 11 + ("20250723_060000".data).length :=
  ⟨C5_alert_id_format.1 ("bihar".data) ("patna".data) ("kumhrar".data)
      ("20250723_060000".data),
   (C5_alert_id_format.2 ("bihar".data) ("patna".data) ("kumhrar".data)
      ("20250723_060000".data) (by decide) (by decide) (by decide)).2.2.2⟩

/-- C6 counterexample: the code truncates with `int(...)` while the claim
rounds: at `precip3day = 2.56` the code's rain probability is 25 but the
claimed formula gives 26, and at `precip3day = 0.3` the code's humidity
is 60 but the claimed formula gives 61 (neither input is a rounding
tie). -/
theorem C6_counterexample_truncation :
    rain_probability (64 / 25) = 25 ∧ rainProbabilityClaim (64 / 25) = 26 ∧
    rain_probability (64 / 25) ≠ rainProbabilityClaim (64 / 25) ∧
    estimated_humidity (3 / 10) = 60 ∧ humidityClaim (3 / 10) = 61 ∧
    estimated_humidity (3 / 10) ≠ humidityClaim (3 / 10) :=
  ⟨by decide, by decide, by decide, by decide, by decide, by decide⟩

/-- C6 amended: the derived rain probability equals
`clamp(10, 90, int(precip3day * 10))` (truncation toward zero, not
rounding) when `precip3day > 0` and exactly 10 when `precip3day ≤ 0`; in
particular `precip3day = 0` gives 10 and `precip3day = 9` gives 90.  The
derived humidity equals `clamp(40, 95, 60 + int(precip3day * 2))`, and
both values always stay inside their clamp ranges. -/
theorem C6_rain_probability_humidity :
    (∀ p : ℚ, rain_probability p = rainProbabilityAmended p ∧
      estimated_humidity p = humidityAmended p) ∧
    (∀ p : ℚ, p ≤ 0 → rain_probability p = 10) ∧
    rain_probability 0 = 10 ∧ rain_probability 9 = 90 ∧
    (∀ p : ℚ, 10 ≤ rain_probability p ∧ rain_probability p ≤ 90 ∧
      40 ≤ estimated_humidity p ∧ estimated_humidity p ≤ 95) := by
  refine ⟨fun p => ⟨rfl, rfl⟩, ?_, by decide, by decide, ?_⟩
  · intro p hp
    unfold rain_probability
    rw [if_neg (not_lt.mpr hp)]
  · intro p
    unfold rain_probability estimated_humidity
    refine ⟨?_, ?_, le_min (by norm_num) (le_max_left _ _), min_le_left _ _⟩
    · split_ifs with h
      · exact le_min (by norm_num) (le_max_left _ _)
      · exact le_refl 10
    · split_ifs with h
      · exact min_le_left _ _
      · norm_num

/-- Witness for C6 at the concrete non-positive input -1: the rain
probability is exactly 10. -/
theorem C6_rain_probability_humidity_witness : rain_probability (-1) = 10 :=
  C6_rain_probability_humidity.2.1 (-1) (by decide)

/-- C7: AI enhancement degrades gracefully and is reflected exactly in
the output flag: when `generate_ai_alert` returns an analysis, the alert
message is its `enhanced_message` and `ai_generated` is true; when no
API key is configured or the guarded tool call raises, it returns `None`,
the assembly still succeeds with the template classifier message
verbatim, and `ai_generated` is false. -/
theorem C7_ai_enhancement_exact :
    (∀ key res crop stage village district a,
      generate_ai_alert key res crop stage village district = some a →
      ∀ t u msg items,
        (buildAlertSection t u msg items
          (generate_ai_alert key res crop stage village district)).message
            = a.enhanced_message ∧
        (buildAlertSection t u msg items
          (generate_ai_alert key res crop stage village district)).ai_generated = true) ∧
    (∀ res crop stage village district,
      generate_ai_alert none res crop stage village district = none) ∧
    (∀ key e crop stage village district,
      generate_ai_alert key (Except.error e) crop stage village district = none) ∧
    (∀ t u msg items,
      (buildAlertSection t u msg items none).message = msg ∧
      (buildAlertSection t u msg items none).ai_generated = false) := by
  refine ⟨?_, fun res crop stage village district => rfl, ?_,
    fun t u msg items => ⟨rfl, rfl⟩⟩
  · intro key res crop stage village district a ha t u msg items
    rw [ha]
    exact ⟨rfl, rfl⟩
  · intro key e crop stage village district
    cases key with
    | none => rfl
    | some k => rfl

/-- Witness for C7: a concrete successful AI analysis replaces the
template message and sets the flag; the no-analysis assembly keeps the
template message verbatim with the flag false. -/
theorem C7_ai_enhancement_exact_witness :
    (buildAlertSection ("weather_update") ("low") ("template message") []
      (generate_ai_alert (some "sk") (Except.ok (AIRaw.dict (some "Rain likely")
        (some "Lodging risk") none)) ("rice") ("Flowering") ("Kumhrar") ("patna"))).message
      = "ü§ñ AI Weather Alert for Kumhrar, patna: Rain likely üåæ Crop Impact (rice - Flowering): Lodging risk" ∧
    (buildAlertSection ("weather_update") ("low") ("template message") []
      (generate_ai_alert (some "sk") (Except.ok (AIRaw.dict (some "Rain likely")
        (some "Lodging risk") none)) ("rice") ("Flowering") ("Kumhrar") ("patna"))).ai_generated
      = true ∧
    (buildAlertSection ("weather_update") ("low") ("template message") [] none).message
      = "template message" ∧
    (buildAlertSection ("weather_update") ("low") ("template message") [] none).ai_generated
      = false := by
  have h := C7_ai_enhancement_exact.1 (some "sk")
    (Except.ok (AIRaw.dict (some "Rain likely") (some "Lodging risk") none))
    ("rice") ("Flowering") ("Kumhrar") ("patna")
    ⟨"Rain likely", "Lodging risk", "Continue routine farming activities",
     "ü§ñ AI Weather Alert for Kumhrar, patna: Rain likely üåæ Crop Impact (rice - Flowering): Lodging risk"⟩
    (by decide) ("weather_update") ("low") ("template message") []
  exact ⟨h.1, h.2, (C7_ai_enhancement_exact.2.2.2 ("weather_update") ("low")
    ("template message") []).1, (C7_ai_enhancement_exact.2.2.2 ("weather_update") ("low")
    ("template message") []).2⟩

/-- C9: for every alert record the SMS formatter returns a string of at
most 160 characters (code points), because the formatted message is
truncated with `message[:160]`. -/
theorem C9_sms_length_le_160 :
    ∀ a : SmsAlertJson, (create_sms_message a).length ≤ 160 := by
  intro a
  show (List.take 160 _).length ≤ 160
  rw [List.length_take]
  exact min_le_left _ _

/-- Helper: a successful geocoding attempt always yields a two-element
coordinate list. -/
theorem geocodeCoords_some_length (r : Except String GeoDict) (c : List ℚ)
    (h : geocodeCoords r = some c) : c.length = 2 := by
  rcases r with e | ⟨he, la, lo⟩
  · exact absurd h (by simp [geocodeCoords])
  · cases he <;> cases la <;> cases lo <;>
      first
        | (injection h with h2; exact h2 ▸ rfl)
        | exact absurd h (by simp [geocodeCoords])

/-- C10: coordinate resolution never fails: every outcome of the two
geocoding attempts yields a two-element coordinate pair (the embedding is
a total function since the code catches every exception); when the
village attempt fails it falls back to the district attempt, and when
both fail it returns the fixed Patna coordinates `[25.5941, 85.1376]`
with source `fallback_patna`. -/
theorem C10_coordinates_never_fail :
    (∀ vr dr v d, ((get_location_coordinates vr dr v d).1).length = 2) ∧
    (∀ vr dr v d, geocodeCoords vr = none → geocodeCoords dr = none →
      get_location_coordinates vr dr v d = ([25.5941, 85.1376], "fallback_patna")) ∧
    (∀ vr dr v d c, geocodeCoords vr = none → geocodeCoords dr = some c →
      get_location_coordinates vr dr v d = (c, "district_" ++ d)) ∧
    (∀ vr dr v d c, geocodeCoords vr = some c →
      get_location_coordinates vr dr v d = (c, "village_" ++ v)) := by
  refine ⟨?_, ?_, ?_, ?_⟩
  · intro vr dr v d
    unfold get_location_coordinates
    rcases hv : geocodeCoords vr with _ | c
    · rcases hd2 : geocodeCoords dr with _ | c2
      · rfl
      · exact geocodeCoords_some_length dr c2 hd2
    · exact geocodeCoords_some_length vr c hv
  · intro vr dr v d h1 h2
    unfold get_location_coordinates
    rw [h1, h2]
  · intro vr dr v d c h1 h2
    unfold get_location_coordinates
    rw [h1, h2]
  · intro vr dr v d c h1
    unfold get_location_coordinates
    rw [h1]

/-- Witness for C10: with both geocoding attempts raising, the result is
the Patna fallback pair. -/
theorem C10_coordinates_never_fail_witness :
    get_location_coordinates (Except.error ("boom")) (Except.error ("boom2"))
      ("Kumhrar") ("patna") = ([25.5941, 85.1376], "fallback_patna") :=
  C10_coordinates_never_fail.2.1 (Except.error ("boom")) (Except.error ("boom2"))
    ("Kumhrar") ("patna") rfl rfl

end Spec2Proof
